import Mathlib

/-!
Verification of the Mean-CVaR portfolio optimizer (`src/app.py`) against its
natural-language specification.

Modelling conventions:
- Python/numpy floating-point numbers are embedded as exact rationals `ℚ`.
- A pandas return matrix (`renditen`) is a list of rows, one row (a `List ℚ`
  of per-asset returns) per trading day.
- `np.percentile` with its default linear interpolation is embedded exactly
  (`np_percentile`); `np.sort` semantics are realised via `List.insertionSort`,
  which produces the same (unique) `≤`-sorted permutation of a rational list.
- Values that pandas/numpy render as `NaN` (mean of an empty series,
  covariance with fewer than two samples) are embedded as `none : Option ℚ`.
- The external SciPy SLSQP solver (`scipy.optimize.minimize`) is not part of
  this repository; functions that call it are parameterised over an abstract
  `minimierer` receiving exactly the objective, constraint functions and the
  initial point that the source builds for it.
-/

/-- A point of the efficient frontier, as stored by
`berechne_cvar_effizienzgrenze` in `app.py`: the dict
`{"rendite": ..., "risiko": ..., "gewichte": ...}`. -/
structure Punkt where
  rendite : ℚ
  risiko : ℚ
  gewichte : List ℚ
deriving DecidableEq, Repr

/-- `portfolio_return(gewichte, mittelwerte)` from `app.py`:
`np.sum(gewichte * mittelwerte)`, the weighted expected portfolio return. -/
def portfolio_return (gewichte mittelwerte : List ℚ) : ℚ :=
  (List.zipWith (· * ·) gewichte mittelwerte).sum

/-- The daily portfolio return series `renditen.dot(gewichte)` computed inside
`portfolio_value_at_risk` and `portfolio_cvar`: each historical day's per-asset
return row dotted with the weight vector. -/
def portfolio_renditen (gewichte : List ℚ) (renditen : List (List ℚ)) : List ℚ :=
  renditen.map (fun zeile => (List.zipWith (· * ·) zeile gewichte).sum)

/-- Ascending sort of a rational list (the sort underlying `np.percentile`). -/
def sortiert (l : List ℚ) : List ℚ :=
  l.insertionSort (· ≤ ·)

/-- Linear interpolation step of `np.percentile`: read the sorted sample `s`
at the fractional index `h`, interpolating between `s[⌊h⌋]` and `s[⌊h⌋+1]`
(clamped to the last element when `⌊h⌋+1` falls outside the sample). -/
def interpoliere (s : List ℚ) (h : ℚ) : ℚ :=
  s.getD (⌊h⌋).toNat 0 +
    (h - (((⌊h⌋).toNat : ℕ) : ℚ)) *
      (s.getD ((⌊h⌋).toNat + 1) (s.getD (⌊h⌋).toNat 0) - s.getD (⌊h⌋).toNat 0)

/-- `np.percentile(a, q)` with numpy's default linear interpolation: for the
ascending sort `s` of `a` with `n` elements, read `s` at fractional index
`(q/100)·(n-1)`. -/
def np_percentile (l : List ℚ) (q : ℚ) : ℚ :=
  interpoliere (sortiert l) (q / 100 * (((sortiert l).length : ℚ) - 1))

/-- `portfolio_value_at_risk(gewichte, renditen, risiko_level)` from `app.py`:
the empirical percentile of the daily portfolio returns at level
`risiko_level * 100`. -/
def portfolio_value_at_risk (gewichte : List ℚ) (renditen : List (List ℚ))
    (risiko_level : ℚ) : ℚ :=
  np_percentile (portfolio_renditen gewichte renditen) (risiko_level * 100)

/-- `portfolio_cvar(gewichte, renditen, risiko_level)` from `app.py`:
the mean of all daily portfolio returns `≤` VaR, negated so that the
optimizer minimises a loss magnitude. -/
def portfolio_cvar (gewichte : List ℚ) (renditen : List (List ℚ))
    (risiko_level : ℚ) : ℚ :=
  let pr := portfolio_renditen gewichte renditen;
  let var := portfolio_value_at_risk gewichte renditen risiko_level;
  let schlecht := pr.filter (fun r => r ≤ var);
  -(schlecht.sum / (schlecht.length : ℚ))

/-- `RISIKO_LEVEL = 0.05` from `app.py`: the fixed module-level percentile
level used for every VaR/CVaR evaluation (5% tail, i.e. 95% confidence). -/
def RISIKO_LEVEL : ℚ := 5 / 100

theorem sortiert_perm (l : List ℚ) : List.Perm (sortiert l) l :=
  List.perm_insertionSort _ l

theorem sortiert_sorted (l : List ℚ) : List.Sorted (· ≤ ·) (sortiert l) :=
  List.sorted_insertionSort _ l

/-- Reading a sorted sample at a fractional index between `0` and `n-1`
yields at least the smallest sample value. -/
theorem getD_zero_le_interpoliere (s : List ℚ) (h : ℚ)
    (hs : List.Sorted (· ≤ ·) s) (h0 : 0 ≤ h) (h1 : h ≤ (s.length : ℚ) - 1) :
    s.getD 0 0 ≤ interpoliere s h := by
  have hn : 0 < s.length := by
    rcases Nat.eq_zero_or_pos s.length with hz | hp
    · rw [hz] at h1
      norm_num at h1
      linarith
    · exact hp
  have hfl0 : 0 ≤ ⌊h⌋ := Int.floor_nonneg.mpr h0
  have hkcast : (((⌊h⌋).toNat : ℕ) : ℚ) = ((⌊h⌋ : ℤ) : ℚ) := by
    exact_mod_cast congrArg (fun z : ℤ => (z : ℚ)) (Int.toNat_of_nonneg hfl0)
  have hkh : (((⌊h⌋).toNat : ℕ) : ℚ) ≤ h := by
    rw [hkcast]; exact Int.floor_le h
  have hkn : (⌊h⌋).toNat < s.length := by
    have hq : (((⌊h⌋).toNat : ℕ) : ℚ) + 1 ≤ (s.length : ℚ) := by linarith
    exact_mod_cast hq
  have hget : s.getD (⌊h⌋).toNat 0 = s.get ⟨(⌊h⌋).toNat, hkn⟩ := by
    rw [List.getD_eq_getElem s 0 hkn, List.get_eq_getElem]
  have hstep : s.getD (⌊h⌋).toNat 0 ≤
      s.getD ((⌊h⌋).toNat + 1) (s.getD (⌊h⌋).toNat 0) := by
    by_cases hk1 : (⌊h⌋).toNat + 1 < s.length
    · have hrel : s.get ⟨(⌊h⌋).toNat, hkn⟩ ≤ s.get ⟨(⌊h⌋).toNat + 1, hk1⟩ :=
        hs.rel_get_of_le (by simp [Fin.le_def])
      rw [hget, List.getD_eq_getElem s _ hk1, List.get_eq_getElem] at *
      exact hrel
    · rw [List.getD_eq_default _ _ (Nat.le_of_not_lt hk1)]
  have hhead : s.getD 0 0 ≤ s.getD (⌊h⌋).toNat 0 := by
    have hrel : s.get ⟨0, hn⟩ ≤ s.get ⟨(⌊h⌋).toNat, hkn⟩ :=
      hs.rel_get_of_le (by simp [Fin.le_def])
    rw [hget, List.getD_eq_getElem s 0 hn, List.get_eq_getElem]
    exact hrel
  have hprod : 0 ≤ (h - (((⌊h⌋).toNat : ℕ) : ℚ)) *
      (s.getD ((⌊h⌋).toNat + 1) (s.getD (⌊h⌋).toNat 0) - s.getD (⌊h⌋).toNat 0) :=
    mul_nonneg (by linarith) (by linarith)
  unfold interpoliere
  linarith

/-- The empirical percentile of a nonempty sample at a level in `[0,100]` is
bounded below by some sample element. -/
theorem np_percentile_untere_schranke (l : List ℚ) (q : ℚ) (hne : l ≠ [])
    (hq0 : 0 ≤ q) (hq1 : q ≤ 100) :
    ∃ x ∈ l, x ≤ np_percentile l q := by
  have hsne : sortiert l ≠ [] := by
    intro hcon
    apply hne
    have hlen := congrArg List.length hcon
    rw [(sortiert_perm l).length_eq] at hlen
    exact List.length_eq_zero.mp hlen
  have hn : 0 < (sortiert l).length := List.length_pos.mpr hsne
  have hn1 : (1 : ℚ) ≤ ((sortiert l).length : ℚ) := by exact_mod_cast hn
  have h0 : 0 ≤ q / 100 * (((sortiert l).length : ℚ) - 1) :=
    mul_nonneg (div_nonneg hq0 (by norm_num)) (by linarith)
  have h1 : q / 100 * (((sortiert l).length : ℚ) - 1) ≤
      ((sortiert l).length : ℚ) - 1 := by
    have hdiv : q / 100 ≤ 1 := (div_le_one (by norm_num)).mpr hq1
    nlinarith
  refine ⟨(sortiert l).getD 0 0, ?_, ?_⟩
  · have hmem : (sortiert l).getD 0 0 ∈ sortiert l := by
      rw [List.getD_eq_getElem _ 0 hn]
      exact List.getElem_mem hn
    exact (sortiert_perm l).mem_iff.mp hmem
  · exact getD_zero_le_interpoliere _ _ (sortiert_sorted l) h0 h1

/-- The mean of the elements of `l` that are `≤ v` is itself `≤ v`, provided
at least one such element exists. -/
theorem filter_mittel_le (l : List ℚ) (v : ℚ) (hx : ∃ x ∈ l, x ≤ v) :
    (l.filter (fun r => r ≤ v)).sum /
      (((l.filter (fun r => r ≤ v)).length : ℕ) : ℚ) ≤ v := by
  obtain ⟨x, hxl, hxv⟩ := hx
  have hxf : x ∈ l.filter (fun r => r ≤ v) :=
    List.mem_filter.mpr ⟨hxl, by simpa using hxv⟩
  have hlen : 0 < (l.filter (fun r => r ≤ v)).length :=
    List.length_pos.mpr (List.ne_nil_of_mem hxf)
  have hall : ∀ y ∈ l.filter (fun r => r ≤ v), y ≤ v := by
    intro y hy
    simpa using (List.mem_filter.mp hy).2
  have hsum : (l.filter (fun r => r ≤ v)).sum ≤
      (l.filter (fun r => r ≤ v)).length • v :=
    List.sum_le_card_nsmul _ v hall
  rw [nsmul_eq_mul] at hsum
  have hlenq : (0 : ℚ) < (((l.filter (fun r => r ≤ v)).length : ℕ) : ℚ) := by
    exact_mod_cast hlen
  rw [div_le_iff₀ hlenq]
  linarith [hsum]

/-- Claim C1 (amended): the historical CVaR of `portfolio_cvar` (the mean of
all daily portfolio returns `≤` the empirical VaR percentile, negated) always
satisfies `CVaR-tail-mean ≤ VaR` as signed returns; consequently, whenever the
empirical VaR is `≤ 0` (the α-tail contains losses), the reported CVaR
magnitude is at least the VaR magnitude. -/
theorem c1_theorem (gewichte : List ℚ) (renditen : List (List ℚ))
    (risiko_level : ℚ) (hne : renditen ≠ []) (h0 : 0 ≤ risiko_level)
    (h1 : risiko_level ≤ 1)
    (hvar : portfolio_value_at_risk gewichte renditen risiko_level ≤ 0) :
    |portfolio_value_at_risk gewichte renditen risiko_level| ≤
      |portfolio_cvar gewichte renditen risiko_level| := by
  have hprne : portfolio_renditen gewichte renditen ≠ [] := by
    simp only [portfolio_renditen, ne_eq, List.map_eq_nil_iff]
    exact hne
  have hex : ∃ x ∈ portfolio_renditen gewichte renditen,
      x ≤ portfolio_value_at_risk gewichte renditen risiko_level :=
    np_percentile_untere_schranke (portfolio_renditen gewichte renditen)
      (risiko_level * 100) hprne (by linarith) (by linarith)
  have hmean := filter_mittel_le (portfolio_renditen gewichte renditen)
    (portfolio_value_at_risk gewichte renditen risiko_level) hex
  have hcvar : portfolio_cvar gewichte renditen risiko_level =
      -(((portfolio_renditen gewichte renditen).filter
          (fun r => r ≤ portfolio_value_at_risk gewichte renditen risiko_level)).sum /
        ((((portfolio_renditen gewichte renditen).filter
          (fun r => r ≤ portfolio_value_at_risk gewichte renditen risiko_level)).length : ℕ) : ℚ)) :=
    rfl
  rw [hcvar, abs_of_nonpos hvar, abs_of_nonneg (by linarith)]
  linarith

/-- Witness for C1 at a concrete losing series: daily returns
`-10%, -20%, +10%` on a single asset with full weight, at the 5% level. -/
theorem c1_witness :
    portfolio_value_at_risk [1] [[-1/10], [-2/10], [1/10]] RISIKO_LEVEL ≤ 0 ∧
    |portfolio_value_at_risk [1] [[-1/10], [-2/10], [1/10]] RISIKO_LEVEL| ≤
      |portfolio_cvar [1] [[-1/10], [-2/10], [1/10]] RISIKO_LEVEL| :=
  ⟨by norm_num [portfolio_value_at_risk, portfolio_renditen, np_percentile,
      interpoliere, sortiert, List.insertionSort, List.orderedInsert, RISIKO_LEVEL],
   c1_theorem [1] [[-1/10], [-2/10], [1/10]] RISIKO_LEVEL (by simp)
    (by norm_num [RISIKO_LEVEL]) (by norm_num [RISIKO_LEVEL])
    (by norm_num [portfolio_value_at_risk, portfolio_renditen, np_percentile,
      interpoliere, sortiert, List.insertionSort, List.orderedInsert, RISIKO_LEVEL])⟩

/-- Claim C1, as frozen, fails on the code: for the non-degenerate all-gain
daily return series `1%, 2%, 3%` on a single fully weighted asset, the
empirical 5%-VaR is `0.011` while the reported CVaR magnitude is only `0.01`,
so the CVaR magnitude is strictly smaller than the VaR magnitude. -/
theorem c1_counterexample :
    ¬ (|portfolio_value_at_risk [1] [[1/100], [2/100], [3/100]] RISIKO_LEVEL| ≤
        |portfolio_cvar [1] [[1/100], [2/100], [3/100]] RISIKO_LEVEL|) := by
  norm_num [portfolio_value_at_risk, portfolio_cvar, portfolio_renditen,
    np_percentile, interpoliere, sortiert, List.insertionSort,
    List.orderedInsert, RISIKO_LEVEL, abs_of_pos]

/-- The distance `differenz = abs(punkt['rendite'] - ziel_rendite)` computed by
the scan in `optimieren_api`. -/
def punkt_differenz (ziel : ℚ) (punkt : Punkt) : ℚ :=
  |punkt.rendite - ziel|

/-- One iteration of the linear scan in `optimieren_api` (`app.py` lines
219-226), with the running state `(min_differenz, beste_option)`: the initial
Python state `(inf, None)` is modelled as `none`, against which the first
comparison `differenz < inf` always succeeds; afterwards a point replaces the
stored best only when its distance is strictly smaller, which implements
first-occurrence tie-breaking. -/
def scan_schritt (ziel : ℚ) (acc : Option (ℚ × Punkt)) (punkt : Punkt) :
    Option (ℚ × Punkt) :=
  match acc with
  | none => some (punkt_differenz ziel punkt, punkt)
  | some (md, beste) =>
      if punkt_differenz ziel punkt < md then some (punkt_differenz ziel punkt, punkt)
      else some (md, beste)

/-- The nearest-neighbour lookup of `optimieren_api`: fold the scan over the
precomputed frontier and return the stored best point, if any. -/
def finde_beste_option (grenze : List Punkt) (ziel : ℚ) : Option Punkt :=
  (grenze.foldl (scan_schritt ziel) none).map Prod.snd

/-- Invariant of the scan fold started from a concrete state `(md, b)`:
the fold ends in some state `(md2, b2)` with `md2 ≤ md`, and either the state
is kept because every scanned distance is `≥ md`, or `b2` is the first element
of the scanned list realising the strictly smaller minimal distance `md2`. -/
theorem scan_foldl_some (ziel : ℚ) (l : List Punkt) :
    ∀ (md : ℚ) (b : Punkt),
    ∃ md2 b2, l.foldl (scan_schritt ziel) (some (md, b)) = some (md2, b2) ∧
      md2 ≤ md ∧
      ((md2 = md ∧ b2 = b ∧ ∀ p ∈ l, md ≤ punkt_differenz ziel p) ∨
        (∃ i, ∃ hi : i < l.length, b2 = l.get ⟨i, hi⟩ ∧
          md2 = punkt_differenz ziel b2 ∧ md2 < md ∧
          (∀ j, ∀ hj : j < l.length, md2 ≤ punkt_differenz ziel (l.get ⟨j, hj⟩)) ∧
          (∀ j, ∀ hj : j < l.length, j < i →
            md2 < punkt_differenz ziel (l.get ⟨j, hj⟩)))) := by
  induction l with
  | nil =>
    intro md b
    exact ⟨md, b, rfl, le_refl _, Or.inl ⟨rfl, rfl, by simp⟩⟩
  | cons p rest ih =>
    intro md b
    by_cases hp : punkt_differenz ziel p < md
    · obtain ⟨md2, b2, heq, hle, hcase⟩ := ih (punkt_differenz ziel p) p
      have hstep : (p :: rest).foldl (scan_schritt ziel) (some (md, b)) =
          some (md2, b2) := by
        rw [List.foldl_cons]
        have hs : scan_schritt ziel (some (md, b)) p =
            some (punkt_differenz ziel p, p) := by
          simp [scan_schritt, hp]
        rw [hs, heq]
      refine ⟨md2, b2, hstep, le_trans hle hp.le, Or.inr ?_⟩
      rcases hcase with ⟨h1, h2, h3⟩ | ⟨i, hi, hb2, hmd2, hlt, hall, hfirst⟩
      · refine ⟨0, by simp, by simp [h2], by simp [h1, h2], by rw [h1]; exact hp, ?_, ?_⟩
        · intro j hj
          cases j with
          | zero => simp [h1]
          | succ j' =>
            have hj' : j' < rest.length := by simpa using hj
            have hq := h3 (rest.get ⟨j', hj'⟩) (rest.get_mem _ _)
            rw [h1]
            simpa using hq
        · intro j hj hji
          omega
      · refine ⟨i + 1, by simpa using Nat.succ_lt_succ hi, by simpa using hb2,
          hmd2, lt_trans hlt hp, ?_, ?_⟩
        · intro j hj
          cases j with
          | zero => simpa using le_of_lt hlt
          | succ j' =>
            have hj' : j' < rest.length := by simpa using hj
            simpa using hall j' hj'
        · intro j hj hji
          cases j with
          | zero => simpa using hlt
          | succ j' =>
            have hj' : j' < rest.length := by simpa using hj
            simpa using hfirst j' hj' (by omega)
    · obtain ⟨md2, b2, heq, hle, hcase⟩ := ih md b
      have hstep : (p :: rest).foldl (scan_schritt ziel) (some (md, b)) =
          some (md2, b2) := by
        rw [List.foldl_cons]
        have hs : scan_schritt ziel (some (md, b)) p = some (md, b) := by
          simp [scan_schritt, hp]
        rw [hs, heq]
      push_neg at hp
      refine ⟨md2, b2, hstep, hle, ?_⟩
      rcases hcase with ⟨h1, h2, h3⟩ | ⟨i, hi, hb2, hmd2, hlt, hall, hfirst⟩
      · refine Or.inl ⟨h1, h2, ?_⟩
        intro q hq
        rcases List.mem_cons.mp hq with hq | hq
        · rw [hq]; exact hp
        · exact h3 q hq
      · refine Or.inr ⟨i + 1, by simpa using Nat.succ_lt_succ hi,
          by simpa using hb2, hmd2, hlt, ?_, ?_⟩
        · intro j hj
          cases j with
          | zero => simpa using le_trans (le_of_lt hlt) hp
          | succ j' =>
            have hj' : j' < rest.length := by simpa using hj
            simpa using hall j' hj'
        · intro j hj hji
          cases j with
          | zero => simpa using lt_of_lt_of_le hlt hp
          | succ j' =>
            have hj' : j' < rest.length := by simpa using hj
            simpa using hfirst j' hj' (by omega)

/-- Claim C3: for every non-empty precomputed frontier and every target
return, the linear scan of `optimieren_api` returns the frontier point at the
first index of minimal `|achieved return − target|`: its distance is a lower
bound for every point's distance, and every earlier point has a strictly
larger distance (ties are broken by first occurrence in frontier order). -/
theorem c3_theorem (grenze : List Punkt) (ziel : ℚ) (hne : grenze ≠ []) :
    ∃ i, ∃ hi : i < grenze.length,
      finde_beste_option grenze ziel = some (grenze.get ⟨i, hi⟩) ∧
      (∀ j, ∀ hj : j < grenze.length,
        punkt_differenz ziel (grenze.get ⟨i, hi⟩) ≤
          punkt_differenz ziel (grenze.get ⟨j, hj⟩)) ∧
      (∀ j, ∀ hj : j < grenze.length, j < i →
        punkt_differenz ziel (grenze.get ⟨i, hi⟩) <
          punkt_differenz ziel (grenze.get ⟨j, hj⟩)) := by
  match grenze, hne with
  | p :: rest, _ =>
    obtain ⟨md2, b2, heq, hle, hcase⟩ :=
      scan_foldl_some ziel rest (punkt_differenz ziel p) p
    have hopt : finde_beste_option (p :: rest) ziel = some b2 := by
      unfold finde_beste_option
      rw [List.foldl_cons]
      have hs : scan_schritt ziel none p = some (punkt_differenz ziel p, p) := rfl
      rw [hs, heq]
      rfl
    rcases hcase with ⟨h1, h2, h3⟩ | ⟨i, hi, hb2, hmd2, hlt, hall, hfirst⟩
    · refine ⟨0, by simp, by simpa [h2] using hopt, ?_, ?_⟩
      · intro j hj
        cases j with
        | zero => exact le_refl _
        | succ j' =>
          have hj' : j' < rest.length := by simpa using hj
          have hq := h3 (rest.get ⟨j', hj'⟩) (rest.get_mem _ _)
          simpa using hq
      · intro j hj hji
        omega
    · have hib : i + 1 < (p :: rest).length := by simpa using Nat.succ_lt_succ hi
      have hgi : (p :: rest).get ⟨i + 1, hib⟩ = rest.get ⟨i, hi⟩ := by simp
      refine ⟨i + 1, hib, ?_, ?_, ?_⟩
      · rw [hopt, hb2, hgi]
      · intro j hj
        rw [hgi, ← hb2, ← hmd2]
        cases j with
        | zero => simpa using le_of_lt hlt
        | succ j' =>
          have hj' : j' < rest.length := by simpa using hj
          simpa using hall j' hj'
      · intro j hj hji
        rw [hgi, ← hb2, ← hmd2]
        cases j with
        | zero => simpa using hlt
        | succ j' =>
          have hj' : j' < rest.length := by simpa using hj
          simpa using hfirst j' hj' (by omega)

/-- Witness for C3 at the spec's example: frontier returns `5%, 10%, 15%` and
target `11%`; the scan selects the `10%` point, and the general theorem
applies. -/
theorem c3_witness :
    finde_beste_option
        [⟨5/100, -1/100, [1]⟩, ⟨10/100, -2/100, [1]⟩, ⟨15/100, -3/100, [1]⟩]
        (11/100) = some ⟨10/100, -2/100, [1]⟩ ∧
    (∃ i, ∃ hi : i <
        ([⟨5/100, -1/100, [1]⟩, ⟨10/100, -2/100, [1]⟩,
          ⟨15/100, -3/100, [1]⟩] : List Punkt).length,
      finde_beste_option
          [⟨5/100, -1/100, [1]⟩, ⟨10/100, -2/100, [1]⟩, ⟨15/100, -3/100, [1]⟩]
          (11/100) =
        some (([⟨5/100, -1/100, [1]⟩, ⟨10/100, -2/100, [1]⟩,
          ⟨15/100, -3/100, [1]⟩] : List Punkt).get ⟨i, hi⟩) ∧
      (∀ j, ∀ hj : j < ([⟨5/100, -1/100, [1]⟩, ⟨10/100, -2/100, [1]⟩,
          ⟨15/100, -3/100, [1]⟩] : List Punkt).length,
        punkt_differenz (11/100) (([⟨5/100, -1/100, [1]⟩, ⟨10/100, -2/100, [1]⟩,
          ⟨15/100, -3/100, [1]⟩] : List Punkt).get ⟨i, hi⟩) ≤
          punkt_differenz (11/100) (([⟨5/100, -1/100, [1]⟩, ⟨10/100, -2/100, [1]⟩,
          ⟨15/100, -3/100, [1]⟩] : List Punkt).get ⟨j, hj⟩)) ∧
      (∀ j, ∀ hj : j < ([⟨5/100, -1/100, [1]⟩, ⟨10/100, -2/100, [1]⟩,
          ⟨15/100, -3/100, [1]⟩] : List Punkt).length, j < i →
        punkt_differenz (11/100) (([⟨5/100, -1/100, [1]⟩, ⟨10/100, -2/100, [1]⟩,
          ⟨15/100, -3/100, [1]⟩] : List Punkt).get ⟨i, hi⟩) <
          punkt_differenz (11/100) (([⟨5/100, -1/100, [1]⟩, ⟨10/100, -2/100, [1]⟩,
          ⟨15/100, -3/100, [1]⟩] : List Punkt).get ⟨j, hj⟩))) :=
  ⟨by norm_num [finde_beste_option, scan_schritt, punkt_differenz,
      abs_of_nonneg, abs_of_nonpos],
   c3_theorem _ (11/100) (by simp)⟩

/-- `np.min` of a vector (`np.min` raises on an empty input; the module-level
data always has four assets, so only the nonempty case is exercised). -/
def np_min (l : List ℚ) : ℚ :=
  match l with
  | [] => 0
  | x :: xs => xs.foldl min x

/-- `np.max` of a vector, nonempty case as for `np_min`. -/
def np_max (l : List ℚ) : ℚ :=
  match l with
  | [] => 0
  | x :: xs => xs.foldl max x

/-- `np.linspace(a, b, n)`: `n` evenly spaced points from `a` to `b`, both
endpoints included (`[]` for `n = 0`, `[a]` for `n = 1`). -/
def np_linspace (a b : ℚ) (n : ℕ) : List ℚ :=
  match n with
  | 0 => []
  | 1 => [a]
  | _ => (List.range n).map (fun i : ℕ => a + (i : ℚ) * (b - a) / ((n : ℚ) - 1))

/-- The target-return grid of `berechne_cvar_effizienzgrenze`:
`np.linspace(np.min(mittelwerte) * 0.9, np.max(mittelwerte) * 1.1, schritte)`. -/
def ziel_renditen (mittelwerte : List ℚ) (schritte : ℕ) : List ℚ :=
  np_linspace (np_min mittelwerte * (9/10)) (np_max mittelwerte * (11/10)) schritte

/-- Result of `optimiere_portfolio`. On success the source stores the solver
weights, the achieved return, the volatility and the CVaR at those weights;
volatility is `sqrt(w·(252·Σ)·w)` and is carried here as its radicand
`varianz252` (see `portfolio_varianz_annual`), since `ℚ` has no square root
and no claim consumes the volatility. -/
inductive OptErgebnis where
  | erfolg (gewichte : List ℚ) (rendite : ℚ) (varianz252 : ℚ) (cvar : ℚ)
  | fehler (fehlermeldung : String)
deriving DecidableEq, Repr

/-- The radicand of `portfolio_volatility(gewichte, kovarianzmatrix)`:
`gewichte ᵀ · (kovarianzmatrix · 252) · gewichte`. The source reports the
square root of this quantity. -/
def portfolio_varianz_annual (gewichte : List ℚ)
    (kovarianzmatrix : List (List ℚ)) : ℚ :=
  (List.zipWith (fun wi zeile => wi * (List.zipWith (· * ·) zeile gewichte).sum)
    gewichte kovarianzmatrix).sum * 252

/-- Abstract result of a `scipy.optimize.minimize` call: the fields of the
`OptimizeResult` that `optimiere_portfolio` reads. -/
structure SolverErgebnis where
  success : Bool
  x : List ℚ
  message : String

/-- The external SLSQP solver. `scipy.optimize.minimize` is not part of this
repository, so it is abstracted as a function receiving exactly what the
source passes: the objective, the `eq`-constraint function, the
`ineq`-constraint function and the initial point (the `(0,1)` bounds per
asset are fixed in the source and are stated separately as `in_schranken`). -/
def Minimierer : Type :=
  (List ℚ → ℚ) → (List ℚ → ℚ) → (List ℚ → ℚ) → List ℚ → SolverErgebnis

/-- Constraint C1 of `optimiere_portfolio` (type `eq`):
`lambda gewichte: np.sum(gewichte) - 1`. -/
def nebenbedingung_summe (gewichte : List ℚ) : ℚ :=
  gewichte.sum - 1

/-- Constraint C2 of `optimiere_portfolio` (type `ineq`):
`lambda gewichte: portfolio_return(gewichte, mittelwerte) - ziel_rendite`. -/
def nebenbedingung_rendite (mittelwerte : List ℚ) (ziel_rendite : ℚ)
    (gewichte : List ℚ) : ℚ :=
  portfolio_return gewichte mittelwerte - ziel_rendite

/-- The `bounds = ((0, 1), ...)` box passed to the solver: every weight must
lie in `[0, 1]` (no short selling). -/
def in_schranken (gewichte : List ℚ) : Prop :=
  ∀ w ∈ gewichte, 0 ≤ w ∧ w ≤ 1

/-- The equal-weight initial guess `np.array([1 / num_assets] * num_assets)`. -/
def initial_gewichte (num_assets : ℕ) : List ℚ :=
  List.replicate num_assets (1 / (num_assets : ℚ))

/-- `optimiere_portfolio(ziel_rendite, renditen, mittelwerte, kovarianzmatrix,
risiko_level)` from `app.py`, with the external SLSQP call abstracted as
`minimierer`: hand the CVaR objective, both constraint functions and the
equal-weight start to the solver; on success recompute return, volatility and
CVaR at the solver's weights, otherwise return the failure message. -/
def optimiere_portfolio (minimierer : Minimierer) (ziel_rendite : ℚ)
    (renditen : List (List ℚ)) (mittelwerte : List ℚ)
    (kovarianzmatrix : List (List ℚ)) (risiko_level : ℚ) : OptErgebnis :=
  let ergebnis := minimierer
      (fun gewichte => portfolio_cvar gewichte renditen risiko_level)
      nebenbedingung_summe
      (nebenbedingung_rendite mittelwerte ziel_rendite)
      (initial_gewichte mittelwerte.length);
  if ergebnis.success then
    OptErgebnis.erfolg ergebnis.x (portfolio_return ergebnis.x mittelwerte)
      (portfolio_varianz_annual ergebnis.x kovarianzmatrix)
      (portfolio_cvar ergebnis.x renditen risiko_level)
  else
    OptErgebnis.fehler ergebnis.message

/-- `berechne_cvar_effizienzgrenze(renditen, mittelwerte, kovarianzmatrix,
risiko_level, schritte=50)` from `app.py`: sweep the target grid in order,
invoke the optimizer at each target, and append each successful result's
`(rendite, risiko, gewichte)` to the frontier; failed targets are skipped. -/
def berechne_cvar_effizienzgrenze (minimierer : Minimierer)
    (renditen : List (List ℚ)) (mittelwerte : List ℚ)
    (kovarianzmatrix : List (List ℚ)) (risiko_level : ℚ) (schritte : ℕ) :
    List Punkt :=
  (ziel_renditen mittelwerte schritte).foldl (fun effizienzgrenze ziel =>
    match optimiere_portfolio minimierer ziel renditen mittelwerte
        kovarianzmatrix risiko_level with
    | OptErgebnis.erfolg gewichte rendite _ cvar =>
        effizienzgrenze ++ [⟨rendite, cvar, gewichte⟩]
    | OptErgebnis.fehler _ => effizienzgrenze) []

theorem foldl_min_le_start (xs : List ℚ) : ∀ x : ℚ, xs.foldl min x ≤ x := by
  induction xs with
  | nil => intro x; exact le_refl x
  | cons a l ih => intro x; exact le_trans (ih (min x a)) (min_le_left x a)

theorem le_foldl_max_start (xs : List ℚ) : ∀ x : ℚ, x ≤ xs.foldl max x := by
  induction xs with
  | nil => intro x; exact le_refl x
  | cons a l ih => intro x; exact le_trans (le_max_left x a) (ih (max x a))

theorem np_min_le_np_max (l : List ℚ) (hne : l ≠ []) : np_min l ≤ np_max l := by
  match l, hne with
  | x :: xs, _ =>
    exact le_trans (foldl_min_le_start xs x) (le_foldl_max_start xs x)

theorem np_linspace_eq_map (a b : ℚ) (n : ℕ) (hn : 2 ≤ n) :
    np_linspace a b n =
      (List.range n).map (fun i : ℕ => a + (i : ℚ) * (b - a) / ((n : ℚ) - 1)) := by
  match n, hn with
  | n + 2, _ => rfl

theorem np_linspace_length (a b : ℚ) (n : ℕ) (hn : 2 ≤ n) :
    (np_linspace a b n).length = n := by
  rw [np_linspace_eq_map a b n hn]
  simp

theorem np_linspace_sorted (a b : ℚ) (n : ℕ) (hab : a ≤ b) :
    List.Sorted (· ≤ ·) (np_linspace a b n) := by
  match n with
  | 0 => simp [np_linspace]
  | 1 => simp [np_linspace]
  | n + 2 =>
    rw [np_linspace_eq_map a b (n + 2) (by omega)]
    have hone : (1 : ℚ) ≤ ((n + 2 : ℕ) : ℚ) := by
      push_cast
      linarith [Nat.cast_nonneg (α := ℚ) n]
    have hd : 0 ≤ (b - a) / (((n + 2 : ℕ) : ℚ) - 1) :=
      div_nonneg (by linarith) (by linarith)
    unfold List.Sorted
    rw [List.pairwise_map]
    refine (List.pairwise_lt_range _).imp ?_
    intro i j hij
    have hij' : (i : ℚ) ≤ (j : ℚ) := by exact_mod_cast le_of_lt hij
    rw [mul_div_assoc, mul_div_assoc]
    have := mul_le_mul_of_nonneg_right hij' hd
    linarith

theorem np_linspace_getD_zero (a b : ℚ) (n : ℕ) (hn : 2 ≤ n) :
    (np_linspace a b n).getD 0 0 = a := by
  rw [np_linspace_eq_map a b n hn]
  have h0 : 0 < ((List.range n).map
      (fun i : ℕ => a + (i : ℚ) * (b - a) / ((n : ℚ) - 1))).length := by
    simpa using (by omega : 0 < n)
  rw [List.getD_eq_getElem _ _ h0]
  simp

theorem np_linspace_getLast (a b : ℚ) (n : ℕ) (hn : 2 ≤ n) :
    (np_linspace a b n).getLast? = some b := by
  rw [np_linspace_eq_map a b n hn, List.getLast?_eq_getElem?]
  have hlen : ((List.range n).map
      (fun i : ℕ => a + (i : ℚ) * (b - a) / ((n : ℚ) - 1))).length = n := by simp
  have hlt : n - 1 < n := by omega
  rw [hlen, List.getElem?_eq_getElem (by simpa using hlt)]
  simp only [List.getElem_map, List.getElem_range]
  have hcast : ((n - 1 : ℕ) : ℚ) = (n : ℚ) - 1 := by
    have : (1 : ℕ) ≤ n := by omega
    push_cast [this]
    ring
  have hnz : (n : ℚ) - 1 ≠ 0 := by
    have h2 : (2 : ℚ) ≤ (n : ℚ) := by exact_mod_cast hn
    intro hcon
    rw [sub_eq_zero] at hcon
    rw [hcon] at h2
    norm_num at h2
  rw [hcast, mul_div_assoc, mul_comm, div_mul_cancel₀ _ hnz]
  norm_num

theorem effizienzgrenze_foldl_append (minimierer : Minimierer)
    (renditen : List (List ℚ)) (mittelwerte : List ℚ)
    (kovarianzmatrix : List (List ℚ)) (risiko_level : ℚ) (grid : List ℚ) :
    ∀ acc : List Punkt,
      grid.foldl (fun effizienzgrenze ziel =>
        match optimiere_portfolio minimierer ziel renditen mittelwerte
            kovarianzmatrix risiko_level with
        | OptErgebnis.erfolg gewichte rendite _ cvar =>
            effizienzgrenze ++ [⟨rendite, cvar, gewichte⟩]
        | OptErgebnis.fehler _ => effizienzgrenze) acc =
      acc ++ grid.filterMap (fun ziel =>
        match optimiere_portfolio minimierer ziel renditen mittelwerte
            kovarianzmatrix risiko_level with
        | OptErgebnis.erfolg gewichte rendite _ cvar =>
            some ⟨rendite, cvar, gewichte⟩
        | OptErgebnis.fehler _ => none) := by
  induction grid with
  | nil => intro acc; simp
  | cons z rest ih =>
    intro acc
    rw [List.foldl_cons, List.filterMap_cons]
    rcases hopt : optimiere_portfolio minimierer z renditen mittelwerte
        kovarianzmatrix risiko_level with ⟨g, r, v, c⟩ | m
    · simp only [hopt]
      rw [ih]
      simp
    · simp only [hopt]
      exact ih acc

/-- Claim C4 (amended): for statistics whose asset mean returns are all
nonnegative (so that `0.9·min ≤ min` and `max ≤ 1.1·max`) and a sweep of at
least two points, the frontier builder's target grid has exactly `schritte`
linearly spaced entries, starts at `0.9·(worst mean)` which is below the worst
mean, ends at `1.1·(best mean)` which is above the best mean, and is
non-decreasing; the frontier equals the in-order `filterMap` of the per-target
optimizer results (one optimizer invocation per grid point, failed points
discarded, successes kept in sweep order). For a negative worst mean the
factor `0.9` moves the bound above the worst mean instead (see the
counterexample). -/
theorem c4_theorem (minimierer : Minimierer) (renditen : List (List ℚ))
    (mittelwerte : List ℚ) (kovarianzmatrix : List (List ℚ))
    (risiko_level : ℚ) (schritte : ℕ) (hne : mittelwerte ≠ [])
    (hpos : 0 ≤ np_min mittelwerte) (hs : 2 ≤ schritte) :
    (ziel_renditen mittelwerte schritte).length = schritte ∧
    (ziel_renditen mittelwerte schritte).getD 0 0 =
      np_min mittelwerte * (9/10) ∧
    np_min mittelwerte * (9/10) ≤ np_min mittelwerte ∧
    (ziel_renditen mittelwerte schritte).getLast? =
      some (np_max mittelwerte * (11/10)) ∧
    np_max mittelwerte ≤ np_max mittelwerte * (11/10) ∧
    List.Sorted (· ≤ ·) (ziel_renditen mittelwerte schritte) ∧
    berechne_cvar_effizienzgrenze minimierer renditen mittelwerte
        kovarianzmatrix risiko_level schritte =
      (ziel_renditen mittelwerte schritte).filterMap (fun ziel =>
        match optimiere_portfolio minimierer ziel renditen mittelwerte
            kovarianzmatrix risiko_level with
        | OptErgebnis.erfolg gewichte rendite _ cvar =>
            some ⟨rendite, cvar, gewichte⟩
        | OptErgebnis.fehler _ => none) := by
  have hminmax := np_min_le_np_max mittelwerte hne
  have hmax0 : 0 ≤ np_max mittelwerte := le_trans hpos hminmax
  have hab : np_min mittelwerte * (9/10) ≤ np_max mittelwerte * (11/10) := by
    nlinarith
  refine ⟨np_linspace_length _ _ _ hs, np_linspace_getD_zero _ _ _ hs,
    by nlinarith, np_linspace_getLast _ _ _ hs, by nlinarith,
    np_linspace_sorted _ _ _ hab, ?_⟩
  unfold berechne_cvar_effizienzgrenze
  rw [effizienzgrenze_foldl_append]
  rw [List.nil_append]

/-- Witness for C4 at concrete nonnegative mean returns `1%, 2%` with a
two-point sweep and a solver that always reports failure. -/
theorem c4_witness :
    (([1/100, 2/100] : List ℚ) ≠ [] ∧ 0 ≤ np_min [1/100, 2/100]) ∧
    ((ziel_renditen [1/100, 2/100] 2).length = 2 ∧
    (ziel_renditen [1/100, 2/100] 2).getD 0 0 =
      np_min [1/100, 2/100] * (9/10) ∧
    np_min [1/100, 2/100] * (9/10) ≤ np_min [1/100, 2/100] ∧
    (ziel_renditen [1/100, 2/100] 2).getLast? =
      some (np_max [1/100, 2/100] * (11/10)) ∧
    np_max [1/100, 2/100] ≤ np_max [1/100, 2/100] * (11/10) ∧
    List.Sorted (· ≤ ·) (ziel_renditen [1/100, 2/100] 2) ∧
    berechne_cvar_effizienzgrenze (fun _ _ _ x0 => ⟨false, x0, "keine Konvergenz"⟩)
        [[1/100, 2/100]] [1/100, 2/100] [[0, 0], [0, 0]] RISIKO_LEVEL 2 =
      (ziel_renditen [1/100, 2/100] 2).filterMap (fun ziel =>
        match optimiere_portfolio (fun _ _ _ x0 => ⟨false, x0, "keine Konvergenz"⟩)
            ziel [[1/100, 2/100]] [1/100, 2/100] [[0, 0], [0, 0]]
            RISIKO_LEVEL with
        | OptErgebnis.erfolg gewichte rendite _ cvar =>
            some ⟨rendite, cvar, gewichte⟩
        | OptErgebnis.fehler _ => none)) :=
  ⟨⟨by simp, by norm_num [np_min, min_def]⟩,
   c4_theorem (fun _ _ _ x0 => ⟨false, x0, "keine Konvergenz"⟩)
    [[1/100, 2/100]] [1/100, 2/100] [[0, 0], [0, 0]] RISIKO_LEVEL 2
    (by simp) (by norm_num [np_min, min_def]) (by norm_num)⟩

/-- Claim C4, as frozen, fails on the code for negative mean returns: with
both asset means equal to `-1` and a two-point sweep, the grid is
`[-0.9, -1.1]`, whose first point `0.9·min = -0.9` lies strictly above the
worst mean `-1` instead of "slightly below" it, and the grid is decreasing,
so the frontier targets are not in non-decreasing order. -/
theorem c4_counterexample :
    ziel_renditen [-1, -1] 2 = [-9/10, -11/10] ∧
    ¬ ((ziel_renditen [-1, -1] 2).getD 0 0 ≤ np_min [-1, -1]) ∧
    ¬ List.Sorted (· ≤ ·) (ziel_renditen [-1, -1] 2) := by
  have hmin : np_min [-1, -1] = (-1 : ℚ) := by
    simp [np_min, min_self]
  have hmax : np_max [-1, -1] = (-1 : ℚ) := by
    simp [np_max, max_self]
  have hg : ziel_renditen [-1, -1] 2 = [-9/10, -11/10] := by
    unfold ziel_renditen
    rw [hmin, hmax, np_linspace_eq_map _ _ 2 (by norm_num)]
    have hr : List.range 2 = [0, 1] := rfl
    rw [hr]
    norm_num
  refine ⟨hg, ?_, ?_⟩
  · rw [hg, hmin]
    norm_num [List.getD_cons_zero]
  · rw [hg]
    intro hcon
    have hle := (List.sorted_cons.mp hcon).1 (-11/10) (by simp)
    norm_num at hle

/-- The quadratic form `v ᵀ · K · v` of a matrix, used to state that a
covariance matrix is not positive-definite (some nonzero `v` gives a
nonpositive value). -/
def quadratische_form (kovarianzmatrix : List (List ℚ)) (v : List ℚ) : ℚ :=
  (List.zipWith (fun vi zeile => vi * (List.zipWith (· * ·) zeile v).sum)
    v kovarianzmatrix).sum

/-- Success flag of an optimizer result (`ergebnis["erfolgreich"]`). -/
def opt_erfolgreich : OptErgebnis → Bool
  | OptErgebnis.erfolg _ _ _ _ => true
  | OptErgebnis.fehler _ => false

/-- Weights of a successful optimizer result (`ergebnis["gewichte"]`). -/
def opt_gewichte : OptErgebnis → Option (List ℚ)
  | OptErgebnis.erfolg g _ _ _ => some g
  | OptErgebnis.fehler _ => none

/-- Achieved return of a successful optimizer result (`ergebnis["rendite"]`). -/
def opt_rendite : OptErgebnis → Option ℚ
  | OptErgebnis.erfolg _ r _ _ => some r
  | OptErgebnis.fehler _ => none

/-- CVaR of a successful optimizer result (`ergebnis["cvar"]`). -/
def opt_cvar : OptErgebnis → Option ℚ
  | OptErgebnis.erfolg _ _ _ c => some c
  | OptErgebnis.fehler _ => none

/-- Claim C2 (amended): the historical risk evaluation of `app.py` never
consults the covariance matrix — there is no Cholesky factorisation and no
sentinel value in the code. For any two covariance matrices (in particular a
non-positive-definite one and a benign one), `optimiere_portfolio` produces
the same success flag, the same weights, the same achieved return and the
same CVaR; only the volatility report depends on the matrix. Consequently the
optimizer cannot crash on a non-positive-definite matrix, but it also does
not return any deliberately large sentinel risk there. -/
theorem c2_theorem (minimierer : Minimierer) (ziel_rendite : ℚ)
    (renditen : List (List ℚ)) (mittelwerte : List ℚ)
    (kovarianzmatrix kovarianzmatrix2 : List (List ℚ)) (risiko_level : ℚ) :
    opt_erfolgreich (optimiere_portfolio minimierer ziel_rendite renditen
        mittelwerte kovarianzmatrix risiko_level) =
      opt_erfolgreich (optimiere_portfolio minimierer ziel_rendite renditen
        mittelwerte kovarianzmatrix2 risiko_level) ∧
    opt_gewichte (optimiere_portfolio minimierer ziel_rendite renditen
        mittelwerte kovarianzmatrix risiko_level) =
      opt_gewichte (optimiere_portfolio minimierer ziel_rendite renditen
        mittelwerte kovarianzmatrix2 risiko_level) ∧
    opt_rendite (optimiere_portfolio minimierer ziel_rendite renditen
        mittelwerte kovarianzmatrix risiko_level) =
      opt_rendite (optimiere_portfolio minimierer ziel_rendite renditen
        mittelwerte kovarianzmatrix2 risiko_level) ∧
    opt_cvar (optimiere_portfolio minimierer ziel_rendite renditen
        mittelwerte kovarianzmatrix risiko_level) =
      opt_cvar (optimiere_portfolio minimierer ziel_rendite renditen
        mittelwerte kovarianzmatrix2 risiko_level) := by
  unfold optimiere_portfolio
  by_cases hs : (minimierer
      (fun gewichte => portfolio_cvar gewichte renditen risiko_level)
      nebenbedingung_summe
      (nebenbedingung_rendite mittelwerte ziel_rendite)
      (initial_gewichte mittelwerte.length)).success
  · simp [hs, opt_erfolgreich, opt_gewichte, opt_rendite, opt_cvar]
  · simp [hs, opt_erfolgreich, opt_gewichte, opt_rendite, opt_cvar]

/-- Claim C2, as frozen, fails on the code: `[[1, 2], [2, 1]]` is not
positive-definite (the direction `[1, -1]` has negative quadratic form), yet
the optimizer run with it yields the ordinary historical CVaR `3/20` — the
same value obtained with the identity covariance matrix — which is not
greater than that normally attainable CVaR, so no large sentinel risk value
is returned. -/
theorem c2_counterexample :
    quadratische_form [[1, 2], [2, 1]] [1, -1] < 0 ∧
    opt_cvar (optimiere_portfolio (fun _ _ _ _ => ⟨true, [1/2, 1/2], "ok"⟩)
        (1/100) [[-1/10, -2/10]] [1/100, 2/100] [[1, 2], [2, 1]]
        RISIKO_LEVEL) = some (3/20) ∧
    opt_cvar (optimiere_portfolio (fun _ _ _ _ => ⟨true, [1/2, 1/2], "ok"⟩)
        (1/100) [[-1/10, -2/10]] [1/100, 2/100] [[1, 0], [0, 1]]
        RISIKO_LEVEL) = some (3/20) ∧
    ¬ ((3/20 : ℚ) < 3/20) := by
  refine ⟨by norm_num [quadratische_form], ?_, ?_, by norm_num⟩
  · norm_num [optimiere_portfolio, opt_cvar, portfolio_cvar, portfolio_renditen,
      portfolio_value_at_risk, np_percentile, interpoliere, sortiert,
      List.insertionSort, List.orderedInsert, RISIKO_LEVEL, portfolio_return]
  · norm_num [optimiere_portfolio, opt_cvar, portfolio_cvar, portfolio_renditen,
      portfolio_value_at_risk, np_percentile, interpoliere, sortiert,
      List.insertionSort, List.orderedInsert, RISIKO_LEVEL, portfolio_return]

/-- Claim C5: the constraint system `optimiere_portfolio` hands to the SLSQP
solver characterises exactly the claimed invariant. Any weight vector
satisfying the coded `eq` constraint, `ineq` constraint and `(0,1)` bounds
(which SciPy guarantees, within tolerance, for a run it reports as
successful) sums to `1` within `1e-6`, has every component in `[0,1]` and
achieves at least the target return; moreover the coded equal-weight `1/N`
initial guess itself satisfies the full-investment constraint and bounds. -/
theorem c5_theorem (mittelwerte : List ℚ) (ziel_rendite : ℚ)
    (gewichte : List ℚ) (hne : mittelwerte ≠ [])
    (heq : nebenbedingung_summe gewichte = 0)
    (hineq : 0 ≤ nebenbedingung_rendite mittelwerte ziel_rendite gewichte)
    (hbox : in_schranken gewichte) :
    |gewichte.sum - 1| ≤ 1/1000000 ∧
    (∀ w ∈ gewichte, 0 ≤ w ∧ w ≤ 1) ∧
    ziel_rendite ≤ portfolio_return gewichte mittelwerte ∧
    (initial_gewichte mittelwerte.length).sum = 1 ∧
    in_schranken (initial_gewichte mittelwerte.length) := by
  have hn0 : 0 < mittelwerte.length := List.length_pos.mpr hne
  have hcast : (0 : ℚ) < ((mittelwerte.length : ℕ) : ℚ) := by exact_mod_cast hn0
  have hsum1 : gewichte.sum = 1 := by
    have := heq
    unfold nebenbedingung_summe at this
    linarith
  refine ⟨by rw [hsum1]; norm_num, hbox, ?_, ?_, ?_⟩
  · have := hineq
    unfold nebenbedingung_rendite at this
    linarith
  · unfold initial_gewichte
    rw [List.sum_replicate, nsmul_eq_mul]
    rw [mul_one_div, div_self (ne_of_gt hcast)]
  · intro w hw
    have hww := List.eq_of_mem_replicate hw
    rw [hww]
    constructor
    · positivity
    · rw [one_div]
      apply inv_le_one_of_one_le₀
      exact_mod_cast hn0

/-- Witness for C5: two assets with means `1%, 3%`, target `1%`, candidate
weights `[1/2, 1/2]`; all constraint hypotheses hold and the invariant
follows. -/
theorem c5_witness :
    (([1/100, 3/100] : List ℚ) ≠ [] ∧
      nebenbedingung_summe [1/2, 1/2] = 0 ∧
      0 ≤ nebenbedingung_rendite [1/100, 3/100] (1/100) [1/2, 1/2] ∧
      in_schranken [1/2, 1/2]) ∧
    (|([1/2, 1/2] : List ℚ).sum - 1| ≤ 1/1000000 ∧
      (∀ w ∈ ([1/2, 1/2] : List ℚ), 0 ≤ w ∧ w ≤ 1) ∧
      (1/100 : ℚ) ≤ portfolio_return [1/2, 1/2] [1/100, 3/100] ∧
      (initial_gewichte ([1/100, 3/100] : List ℚ).length).sum = 1 ∧
      in_schranken (initial_gewichte ([1/100, 3/100] : List ℚ).length)) :=
  ⟨⟨by simp,
    by norm_num [nebenbedingung_summe],
    by norm_num [nebenbedingung_rendite, portfolio_return],
    by intro w hw; rcases List.mem_pair.mp hw with h | h <;> rw [h] <;> norm_num⟩,
   c5_theorem [1/100, 3/100] (1/100) [1/2, 1/2] (by simp)
    (by norm_num [nebenbedingung_summe])
    (by norm_num [nebenbedingung_rendite, portfolio_return])
    (by intro w hw; rcases List.mem_pair.mp hw with h | h <;> rw [h] <;> norm_num)⟩

/-- A parsed JSON request body (`daten = request.get_json()`): an association
of field names to numeric values. -/
structure Anfrage where
  felder : List (String × ℚ)
deriving DecidableEq, Repr

/-- `daten.get(schluessel, standard)`: the value bound to the key, or the
default when the key is absent. -/
def anfrage_get (daten : Anfrage) (schluessel : String) (standard : ℚ) : ℚ :=
  match daten.felder.find? (fun p => p.fst = schluessel) with
  | some p => p.snd
  | none => standard

/-- Python's `round(x, 2)` — round-half-to-even at the second decimal —
idealised over exact rationals. -/
def runde2 (x : ℚ) : ℚ :=
  let y := x * 100;
  let u := ⌊y⌋;
  let rest := y - (u : ℚ);
  let g : ℤ :=
    if rest < 1/2 then u
    else if 1/2 < rest then u + 1
    else if u % 2 = 0 then u else u + 1;
  (g : ℚ) / 100

/-- The success JSON of `optimieren_api`. -/
structure Antwort where
  erwarteteRendite : ℚ
  cvarRisiko : ℚ
  gewichtung : List (String × ℚ)
  assetNamen : List String
  effizienzGrenze : List (ℚ × ℚ)
deriving DecidableEq, Repr

/-- Outcome of one request to the `/optimieren` route: a JSON success
response, a structured JSON error `{error: ...}` with an HTTP status, or an
exception escaping the handler (rendered by the framework as a generic
internal-error page, not as the structured JSON error). -/
inductive ApiErgebnis where
  | ok (antwort : Antwort)
  | fehlerAntwort (status : ℕ) (meldung : String)
  | unbehandelteAusnahme (meldung : String)
deriving DecidableEq, Repr

/-- Whether a route outcome is a structured JSON error response. -/
def ist_strukturierter_fehler : ApiErgebnis → Bool
  | ApiErgebnis.fehlerAntwort _ _ => true
  | _ => false

/-- The success response built by `optimieren_api` (`app.py` lines 228-245)
from the chosen frontier point: every percentage is `round(value * 100, 2)`
and the risk values pass through `abs` first. `gewichtung` pairs
`ASSET_NAMEN[i]` with the rounded weight for each weight index `i`; in the
running system both lists have one entry per asset, which `zip` realises. -/
def baue_antwort (effizienz_grenze : List Punkt) (asset_namen : List String)
    (beste : Punkt) : Antwort where
  erwarteteRendite := runde2 (beste.rendite * 100)
  cvarRisiko := runde2 (|beste.risiko| * 100)
  gewichtung := (List.zip asset_namen beste.gewichte).map
      (fun p => (p.fst, runde2 (p.snd * 100)))
  assetNamen := asset_namen
  effizienzGrenze := effizienz_grenze.map
      (fun p => (runde2 (p.rendite * 100), runde2 (|p.risiko| * 100)))

/-- The `/optimieren` handler body (`app.py` lines 199-253) given the bound
module globals: an empty cached frontier yields the structured 500 error;
otherwise the target return is read from the request (default `0.10`), the
nearest frontier point is looked up, and the response is built. The `none`
branch of the lookup is the source's `beste_option is None` fallback
(status 400). -/
def optimieren_api (effizienz_grenze : List Punkt) (asset_namen : List String)
    (daten : Anfrage) : ApiErgebnis :=
  if effizienz_grenze.isEmpty then
    ApiErgebnis.fehlerAntwort 500
      "Finanzdaten konnten nicht initialisiert werden. Bitte Server-Logs pruefen."
  else
    match finde_beste_option effizienz_grenze
        (anfrage_get daten "zielRendite" (10/100)) with
    | some beste =>
        ApiErgebnis.ok (baue_antwort effizienz_grenze asset_namen beste)
    | none =>
        ApiErgebnis.fehlerAntwort 400
          "Optimierung fehlgeschlagen oder Zielrendite nicht erreichbar."

/-- Module-level state after the startup block (`app.py` lines 178-189):
either the `try` body completed and the globals are bound (`bereit`, possibly
with an empty frontier), or the `except` branch swallowed an exception and
the globals were never assigned. -/
inductive ModulZustand where
  | nichtInitialisiert
  | bereit (effizienz_grenze : List Punkt) (asset_namen : List String)

/-- The full `/optimieren` route including the state of the module globals:
when initialisation failed, evaluating `EFFIZIENZ_GRENZE` at line 206 raises
`NameError` — before the handler's `try` block — so the exception escapes the
handler unhandled instead of producing the structured JSON error. -/
def optimieren_api_route (zustand : ModulZustand) (daten : Anfrage) :
    ApiErgebnis :=
  match zustand with
  | ModulZustand.nichtInitialisiert =>
      ApiErgebnis.unbehandelteAusnahme
        "NameError: name EFFIZIENZ_GRENZE is not defined"
  | ModulZustand.bereit effizienz_grenze asset_namen =>
      optimieren_api effizienz_grenze asset_namen daten

/-- The module initialisation (`app.py` line 183): the frontier is computed
once at startup with the fixed global `RISIKO_LEVEL` and the default
`schritte = 50`; no request data is involved. The simulated price history and
the statistics derived from it enter as parameters here because the data
generator draws from numpy's random generator. -/
def start_effizienz_grenze (minimierer : Minimierer) (renditen : List (List ℚ))
    (mittelwerte : List ℚ) (kovarianzmatrix : List (List ℚ)) : List Punkt :=
  berechne_cvar_effizienzgrenze minimierer renditen mittelwerte kovarianzmatrix
    RISIKO_LEVEL 50

/-- Claim C6 (amended): the request body has no confidence handling at all —
adding or omitting a `confidence` field never changes the response (the
handler reads only `zielRendite`) — and the percentile level applied in every
VaR/CVaR evaluation is the fixed module constant `RISIKO_LEVEL = 0.05`
(confidence 95%), which the startup frontier computation receives; it is not
a per-request default of `α = 1 − 0.99 = 0.01`. -/
theorem c6_theorem :
    (∀ (grenze : List Punkt) (namen : List String)
        (felder : List (String × ℚ)) (c : ℚ),
      optimieren_api grenze namen ⟨("confidence", c) :: felder⟩ =
        optimieren_api grenze namen ⟨felder⟩) ∧
    RISIKO_LEVEL = 5/100 ∧
    (∀ (minimierer : Minimierer) (renditen : List (List ℚ))
        (mittelwerte : List ℚ) (kovarianzmatrix : List (List ℚ)),
      start_effizienz_grenze minimierer renditen mittelwerte kovarianzmatrix =
        berechne_cvar_effizienzgrenze minimierer renditen mittelwerte
          kovarianzmatrix RISIKO_LEVEL 50) := by
  refine ⟨?_, rfl, fun _ _ _ _ => rfl⟩
  intro grenze namen felder c
  have hget : anfrage_get ⟨("confidence", c) :: felder⟩ "zielRendite" (10/100) =
      anfrage_get ⟨felder⟩ "zielRendite" (10/100) := by
    simp [anfrage_get, List.find?]
  unfold optimieren_api
  rw [hget]

/-- Claim C6, as frozen, fails on the code: the level applied in the VaR/CVaR
evaluation is `RISIKO_LEVEL = 0.05`, not `1 − 0.99 = 0.01`, and the two
levels produce observably different VaR values on the series `1%, 2%, 3%`. -/
theorem c6_counterexample :
    RISIKO_LEVEL = 5/100 ∧
    ¬ (RISIKO_LEVEL = 1 - 99/100) ∧
    portfolio_value_at_risk [1] [[1/100], [2/100], [3/100]] RISIKO_LEVEL ≠
      portfolio_value_at_risk [1] [[1/100], [2/100], [3/100]] (1 - 99/100) := by
  refine ⟨rfl, by norm_num [RISIKO_LEVEL], ?_⟩
  norm_num [portfolio_value_at_risk, portfolio_renditen, np_percentile,
    interpoliere, sortiert, List.insertionSort, List.orderedInsert, RISIKO_LEVEL]

/-- Claim C7 (amended): with the module globals bound and an empty frontier,
every query returns the structured JSON 500 error (never a success and never
a crash); but when startup initialisation failed, the globals were never
bound and the handler raises `NameError` outside its `try` block — an
unhandled exception, not the structured error response. -/
theorem c7_theorem :
    (∀ (namen : List String) (daten : Anfrage),
      optimieren_api [] namen daten = ApiErgebnis.fehlerAntwort 500
        "Finanzdaten konnten nicht initialisiert werden. Bitte Server-Logs pruefen.") ∧
    (∀ (namen : List String) (daten : Anfrage),
      ist_strukturierter_fehler
        (optimieren_api_route (ModulZustand.bereit [] namen) daten) = true) ∧
    (∀ daten : Anfrage,
      optimieren_api_route ModulZustand.nichtInitialisiert daten =
        ApiErgebnis.unbehandelteAusnahme
          "NameError: name EFFIZIENZ_GRENZE is not defined") :=
  ⟨fun _ _ => rfl, fun _ _ => rfl, fun _ => rfl⟩

/-- Claim C7, as frozen, fails on the code in the uninitialised state: a
query issued after a failed startup build raises `NameError` (an unhandled
exception, surfaced by the framework as a generic error page), which is not
the structured error response the claim requires. -/
theorem c7_counterexample :
    optimieren_api_route ModulZustand.nichtInitialisiert ⟨[]⟩ =
      ApiErgebnis.unbehandelteAusnahme
        "NameError: name EFFIZIENZ_GRENZE is not defined" ∧
    ist_strukturierter_fehler
      (optimieren_api_route ModulZustand.nichtInitialisiert ⟨[]⟩) = false :=
  ⟨rfl, rfl⟩

/-- The nearest-neighbour scan of a nonempty frontier always stores a point:
the first iteration replaces the initial `(inf, None)` state
unconditionally. -/
theorem finde_beste_option_isSome (grenze : List Punkt) (ziel : ℚ)
    (hne : grenze ≠ []) : (finde_beste_option grenze ziel).isSome = true := by
  match grenze, hne with
  | p :: rest, _ =>
    obtain ⟨md2, b2, heq, _, _⟩ :=
      scan_foldl_some ziel rest (punkt_differenz ziel p) p
    unfold finde_beste_option
    rw [List.foldl_cons]
    have hs : scan_schritt ziel none p = some (punkt_differenz ziel p, p) := rfl
    rw [hs, heq]
    rfl

/-- Claim C10: for every non-empty frontier and every request, the scan
selects some point, so `optimieren_api` answers with a success response; in
particular the 400 branch for an unreachable target return is unreachable —
the query succeeds even when the requested target lies far outside the range
of achieved frontier returns. -/
theorem c10_theorem (grenze : List Punkt) (namen : List String)
    (daten : Anfrage) (hne : grenze ≠ []) :
    ∃ antwort, optimieren_api grenze namen daten = ApiErgebnis.ok antwort := by
  unfold optimieren_api
  have hne' : ¬ (grenze.isEmpty = true) := by simpa using hne
  rw [if_neg hne']
  rcases hscan : finde_beste_option grenze
      (anfrage_get daten "zielRendite" (10/100)) with _ | beste
  · have hsome := finde_beste_option_isSome grenze
      (anfrage_get daten "zielRendite" (10/100)) hne
    rw [hscan] at hsome
    simp at hsome
  · exact ⟨_, rfl⟩

/-- Witness for C10: a one-point frontier and a request whose target `10%`
(the default) is far from every achieved return still yields a success. -/
theorem c10_witness :
    (([⟨1/10, -1/20, [1]⟩] : List Punkt) ≠ []) ∧
    ∃ antwort, optimieren_api [⟨1/10, -1/20, [1]⟩] ["Asset A"] ⟨[]⟩ =
      ApiErgebnis.ok antwort :=
  ⟨by simp, c10_theorem _ _ _ (by simp)⟩

/-- A value expressed with at most two decimal places: an integer number of
hundredths. -/
def zwei_dezimalstellen (q : ℚ) : Prop :=
  ∃ k : ℤ, q = (k : ℚ) / 100

theorem runde2_zwei_dezimalstellen (x : ℚ) :
    zwei_dezimalstellen (runde2 x) :=
  ⟨_, rfl⟩

theorem runde2_nonneg (x : ℚ) (hx : 0 ≤ x) : 0 ≤ runde2 x := by
  have hy : (0 : ℚ) ≤ x * 100 := by positivity
  have hu : 0 ≤ ⌊x * 100⌋ := Int.floor_nonneg.mpr hy
  have hu1 : 0 ≤ ⌊x * 100⌋ + 1 := by omega
  show 0 ≤ (((if x * 100 - (⌊x * 100⌋ : ℚ) < 1/2 then ⌊x * 100⌋
      else if 1/2 < x * 100 - (⌊x * 100⌋ : ℚ) then ⌊x * 100⌋ + 1
      else if ⌊x * 100⌋ % 2 = 0 then ⌊x * 100⌋ else ⌊x * 100⌋ + 1) : ℤ) : ℚ) / 100
  split_ifs
  all_goals refine div_nonneg ?_ (by norm_num)
  all_goals exact_mod_cast (by omega : (0 : ℤ) ≤ _)

/-- Claim C8: every numeric percentage in a successful response — the
expected return, the CVaR risk, each per-asset weight and both components of
every frontier chart point — is `round(·, 2)` of a percentage, hence an
integer number of hundredths; and both risk figures pass through `abs`, so
they are reported as nonnegative magnitudes. -/
theorem c8_theorem (grenze : List Punkt) (namen : List String)
    (daten : Anfrage) (antwort : Antwort)
    (hok : optimieren_api grenze namen daten = ApiErgebnis.ok antwort) :
    zwei_dezimalstellen antwort.erwarteteRendite ∧
    zwei_dezimalstellen antwort.cvarRisiko ∧
    0 ≤ antwort.cvarRisiko ∧
    (∀ p ∈ antwort.gewichtung, zwei_dezimalstellen p.snd) ∧
    (∀ p ∈ antwort.effizienzGrenze,
      zwei_dezimalstellen p.fst ∧ zwei_dezimalstellen p.snd ∧ 0 ≤ p.snd) := by
  unfold optimieren_api at hok
  by_cases hemp : grenze.isEmpty
  · rw [if_pos hemp] at hok
    cases hok
  · rw [if_neg hemp] at hok
    rcases hscan : finde_beste_option grenze
        (anfrage_get daten "zielRendite" (10/100)) with _ | beste
    · rw [hscan] at hok
      cases hok
    · rw [hscan] at hok
      have hba : baue_antwort grenze namen beste = antwort := by
        cases hok
        rfl
      rw [← hba]
      refine ⟨runde2_zwei_dezimalstellen _, runde2_zwei_dezimalstellen _,
        runde2_nonneg _ (by positivity), ?_, ?_⟩
      · intro p hp
        obtain ⟨q, _, hq⟩ := List.mem_map.mp hp
        rw [← hq]
        exact runde2_zwei_dezimalstellen _
      · intro p hp
        obtain ⟨q, _, hq⟩ := List.mem_map.mp hp
        rw [← hq]
        exact ⟨runde2_zwei_dezimalstellen _, runde2_zwei_dezimalstellen _,
          runde2_nonneg _ (by positivity)⟩

/-- Witness for C8: a one-point frontier with return `10%` and (negative raw)
risk `-5%`; the response rounds to whole percentages and reports the risk as
the positive `5`. -/
theorem c8_witness :
    optimieren_api [⟨1/10, -1/20, [1]⟩] ["Asset A"] ⟨[]⟩ =
      ApiErgebnis.ok ⟨10, 5, [("Asset A", 100)], ["Asset A"], [(10, 5)]⟩ ∧
    (zwei_dezimalstellen (10 : ℚ) ∧
      zwei_dezimalstellen (5 : ℚ) ∧
      (0 : ℚ) ≤ 5 ∧
      (∀ p ∈ ([("Asset A", (100 : ℚ))] : List (String × ℚ)),
        zwei_dezimalstellen p.snd) ∧
      (∀ p ∈ ([((10 : ℚ), (5 : ℚ))] : List (ℚ × ℚ)),
        zwei_dezimalstellen p.fst ∧ zwei_dezimalstellen p.snd ∧ 0 ≤ p.snd)) := by
  have hok : optimieren_api [⟨1/10, -1/20, [1]⟩] ["Asset A"] ⟨[]⟩ =
      ApiErgebnis.ok ⟨10, 5, [("Asset A", 100)], ["Asset A"], [(10, 5)]⟩ := by
    norm_num [optimieren_api, anfrage_get, finde_beste_option, scan_schritt,
      punkt_differenz, baue_antwort, runde2, abs_of_nonpos, abs_of_nonneg]
  exact ⟨hok,
    (c8_theorem [⟨1/10, -1/20, [1]⟩] ["Asset A"] ⟨[]⟩
      ⟨10, 5, [("Asset A", 100)], ["Asset A"], [(10, 5)]⟩ hok :)⟩

/-- `df_kurse.pct_change().dropna()` for a price matrix given as one row of
per-asset prices per day: one row of simple returns `(P[t+1] - P[t]) / P[t]`
per consecutive day pair (the leading all-`NaN` row is dropped), so the
result has one row fewer than the input. -/
def pct_change_dropna (kurse : List (List ℚ)) : List (List ℚ) :=
  match kurse with
  | [] => []
  | _ :: rest =>
      List.zipWith (fun vorher nachher =>
        List.zipWith (fun a b => (b - a) / a) vorher nachher) kurse rest

/-- Column `j` of a row-major matrix. -/
def spalte (matrix : List (List ℚ)) (j : ℕ) : List ℚ :=
  matrix.map (fun zeile => zeile.getD j 0)

/-- `Series.mean()` in pandas: the arithmetic mean, or `NaN` (here `none`)
for an empty series. -/
def pandas_mittel (l : List ℚ) : Option ℚ :=
  if l.length = 0 then none else some (l.sum / (l.length : ℚ))

/-- One entry of `DataFrame.cov()` (sample covariance with `ddof = 1`):
`NaN` (here `none`) with fewer than two samples. -/
def pandas_kovarianz (x y : List ℚ) : Option ℚ :=
  if x.length < 2 then none
  else
    match pandas_mittel x, pandas_mittel y with
    | some mx, some my =>
        some ((List.zipWith (fun a b => (a - mx) * (b - my)) x y).sum /
          ((x.length : ℚ) - 1))
    | _, _ => none

/-- `berechne_historische_parameter(df_kurse)` from `app.py`: the daily
simple-return rows, the annualised column means (`mean * 252`), the sample
covariance matrix and the asset names. The source performs no input
validation and none of the pandas calls raises on a short input — they just
produce an empty return frame and `NaN` statistics — so the function always
returns; the `Except` codomain records that a Python function may raise, and
here the result is always `Except.ok`. -/
def berechne_historische_parameter (kurse : List (List ℚ))
    (asset_namen : List String) :
    Except String
      (List (List ℚ) × List (Option ℚ) × List (List (Option ℚ)) ×
        List String) :=
  let renditen := pct_change_dropna kurse;
  let n := (kurse.headD []).length;
  let jaehrliche_mittelwerte := (List.range n).map
      (fun j => (pandas_mittel (spalte renditen j)).map (fun m => m * 252));
  let kovarianzmatrix := (List.range n).map
      (fun i => (List.range n).map
        (fun j => pandas_kovarianz (spalte renditen i) (spalte renditen j)));
  Except.ok (renditen, jaehrliche_mittelwerte, kovarianzmatrix, asset_namen)

/-- Claim C9 (amended): with fewer than two price observations the estimation
does not fail at all — no `InsufficientData` error exists in the code.  It
returns successfully with an empty return series, every annualised mean
`NaN` (`none`) and every covariance entry `NaN` (`none`). -/
theorem c9_theorem (kurse : List (List ℚ)) (asset_namen : List String)
    (hkurz : kurse.length < 2) :
    berechne_historische_parameter kurse asset_namen =
      Except.ok ([],
        (List.range (kurse.headD []).length).map (fun _ => none),
        (List.range (kurse.headD []).length).map (fun _ =>
          (List.range (kurse.headD []).length).map (fun _ => none)),
        asset_namen) := by
  have hren : pct_change_dropna kurse = [] := by
    match kurse, hkurz with
    | [], _ => rfl
    | [k], _ => rfl
  simp [berechne_historische_parameter, hren, spalte, pandas_mittel,
    pandas_kovarianz]

/-- Witness for C9 on the single-observation history `[[100]]`. -/
theorem c9_witness :
    (([[100]] : List (List ℚ)).length < 2) ∧
    berechne_historische_parameter [[100]] ["Asset A"] =
      Except.ok ([], [none], [[none]], ["Asset A"]) :=
  ⟨by norm_num, by simpa using c9_theorem [[100]] ["Asset A"] (by norm_num)⟩

/-- Claim C9, as frozen, fails on the code: for the single-observation price
history `[[100]]` the estimation returns successfully (`Except.ok`) with
empty returns and `NaN` statistics instead of failing with an
`InsufficientData` error. -/
theorem c9_counterexample :
    berechne_historische_parameter [[100]] ["Asset A"] =
      Except.ok ([], [none], [[none]], ["Asset A"]) ∧
    (berechne_historische_parameter [[100]] ["Asset A"]).isOk = true :=
  ⟨rfl, rfl⟩
